import Mathlib

/-!
Verification development for the Aura IT-service-desk repository.

The repository couples a React frontend (ticket pages, chatbot, API service
module) with a FastAPI backend whose AI ticket-triage pipeline is described
in `docs/AI_Ticket_Analysis_Documentation.md` and the design spec.  The
backend Python sources (`ai_ticket_analyzer.py`, `simple_service.py`) are not
part of the checked-in tree, so the triage core (Heuristic Classifier, LLM
Analysis Client, Ticket Triage Orchestrator) is modelled from the spec; the
frontend JavaScript (services/api.js, CreateTicket.js, TicketDetail.js,
Chatbot.js) is embedded directly from the source.

Numeric confidence scores are modelled as rationals; strings are Lean
strings over their character lists.
-/

namespace Aura

/-! ### String utilities shared by the embeddings -/

/-- Lowercase every character of a string (models JavaScript
`String.prototype.toLowerCase` / Python `str.lower` on the ASCII range). -/
def toLowerStr (s : String) : String :=
  ⟨s.data.map Char.toLower⟩

/-- Predicate `listContainsSub h n` is true when `n` occurs as a contiguous substring
of `h` (models JavaScript `String.prototype.includes`). -/
def listContainsSub : List Char → List Char → Bool
  | [], n => n.isEmpty
  | c :: rest, n => n.isPrefixOf (c :: rest) || listContainsSub rest n

/-- Substring test on strings. -/
def containsSub (s sub : String) : Bool :=
  listContainsSub s.data sub.data

/-! ### Data model (spec §3)

Modelled from the spec: the `Ticket` record owned by the Historical Ticket
Store.  Title and description are optional because §4.1/§7 require the
Heuristic Classifier to substitute empty-string defaults for malformed
tickets; `priority` is kept as raw text because §4.1 derives the
recommendation "from explicit priority field if present and valid". -/
structure Ticket where
  id : String
  title : Option String
  description : Option String
  category : Option String
  priority : Option String
  status : Option String
  department : Option String
  requesterName : Option String
  requesterEmail : Option String
  createdAt : Option Nat
  updatedAt : Option Nat
  assignedTo : Option String
  resolution : Option String
  deriving Repr, DecidableEq

/-- Ticket categories (spec §3). -/
inductive Category
  | hardware
  | software
  | network
  | email
  | access
  | security
  | other
  deriving Repr, DecidableEq

/-- Ticket priorities (spec §3). -/
inductive Priority
  | low
  | medium
  | high
  | critical
  deriving Repr, DecidableEq

/-- Processor availability states (spec §3). -/
inductive Availability
  | available
  | busy
  | offline
  | unknown
  deriving Repr, DecidableEq

/-- The `suggestedProcessor` field of a `TicketAnalysis` (spec §3). -/
structure SuggestedProcessor where
  name : String
  reason : String
  confidenceScore : ℚ
  matchedSkills : List String
  availability : Availability
  deriving Repr, DecidableEq

/-- One entry of the `similarTickets` list (spec §3). -/
structure SimilarTicket where
  title : String
  similarityScore : ℚ
  resolutionApproach : String
  deriving Repr, DecidableEq

/-- The `TicketAnalysis` record (spec §3).  Every field of the §3 schema is a
non-optional field of this structure, so field presence is a type-level
fact for any value of this type. -/
structure TicketAnalysis where
  suggestedProcessor : SuggestedProcessor
  selfFixSuggestions : List String
  categoryConfidence : ℚ
  priorityRecommendation : String
  similarTickets : List SimilarTicket
  estimatedResolutionTime : String
  additionalInsights : List String
  deriving Repr, DecidableEq

/-- Range invariants of spec §3/§8: all confidence-like scores lie in
`[0,1]`. -/
def rangeInvariant (a : TicketAnalysis) : Prop :=
  0 ≤ a.categoryConfidence ∧ a.categoryConfidence ≤ 1 ∧
  0 ≤ a.suggestedProcessor.confidenceScore ∧
    a.suggestedProcessor.confidenceScore ≤ 1 ∧
  ∀ s ∈ a.similarTickets, 0 ≤ s.similarityScore ∧ s.similarityScore ≤ 1

/-- Full §3 schema invariants: the range invariants together with the
declared length bounds on the list-valued fields. -/
def schemaValid (a : TicketAnalysis) : Prop :=
  rangeInvariant a ∧
  a.selfFixSuggestions.length ≤ 6 ∧
  a.similarTickets.length ≤ 5 ∧
  a.additionalInsights.length ≤ 5

/-! ### Heuristic Classifier (spec §4.1)

Modelled from the spec: the backend file `ai_ticket_analyzer.py` named in
`docs/AI_Ticket_Analysis_Documentation.md` is absent from the tree, so the
rule engine below follows §4.1 of the design spec word for word: an ordered
keyword→category table scanned case-insensitively over title+description,
an urgency-keyword priority rule, a category→suggestions table with a
generic fallback, a priority→duration table, and confidences floored at
`0.3`. -/

/-- The lowercased `title ++ " " ++ description` text the classifier scans,
with empty-string defaults for missing fields (spec §4.1 totality rule). -/
def ticketText (t : Ticket) : String :=
  toLowerStr ((t.title.getD "") ++ " " ++ (t.description.getD ""))

/-- First keyword-table entry: network-related keywords. -/
def networkEntry : List String × Category :=
  (["vpn", "network", "wifi"], Category.network)

/-- Second keyword-table entry: access-related keywords. -/
def accessEntry : List String × Category :=
  (["password", "login", "locked out"], Category.access)

/-- Third keyword-table entry: hardware-related keywords. -/
def hardwareEntry : List String × Category :=
  (["printer", "laptop", "monitor"], Category.hardware)

/-- The fixed ordered keyword→category table of spec §4.1. -/
def keywordTable : List (List String × Category) :=
  [networkEntry, accessEntry, hardwareEntry]

/-- An entry matches when any of its keywords occurs in the scanned text. -/
def entryMatches (text : String) (e : List String × Category) : Bool :=
  e.1.any (fun kw => containsSub text kw)

/-- Category selection: first matching table entry in declaration order
wins; default category when no keyword matches (spec §4.1). -/
def heuristicCategory (t : Ticket) : Category :=
  match keywordTable.find? (entryMatches (ticketText t)) with
  | some e => e.2
  | none => Category.other

/-- Category confidence: fraction of the keywords of the chosen entry found in
the text, floored at `0.3`; `0.3` for the default category (spec §4.1). -/
def heuristicCategoryConfidence (t : Ticket) : ℚ :=
  match keywordTable.find? (entryMatches (ticketText t)) with
  | some e =>
      max (3/10)
        ((e.1.countP (fun kw => containsSub (ticketText t) kw) : ℚ) /
          (e.1.length : ℚ))
  | none => 3/10

/-- Parse an explicit ticket priority field; `none` when invalid. -/
def parsePriority (s : String) : Option Priority :=
  match toLowerStr s with
  | "low" => some .low
  | "medium" => some .medium
  | "high" => some .high
  | "critical" => some .critical
  | _ => none

/-- Urgency keywords of spec §4.1. -/
def urgencyKeywords : List String :=
  ["down", "cannot work", "critical"]

/-- Priority recommendation: explicit valid priority wins; otherwise an
urgency keyword maps to critical (spec §8 scenario 2 pairs the urgency
keyword "down" with the "1-2 hours" duration of the critical row), else
medium. -/
def heuristicPriority (t : Ticket) : Priority :=
  match t.priority.bind parsePriority with
  | some p => p
  | none =>
      if urgencyKeywords.any (fun kw => containsSub (ticketText t) kw) then
        Priority.critical
      else
        Priority.medium

/-- Priority names used in the free-text recommendation. -/
def priorityName : Priority → String
  | .low => "low"
  | .medium => "medium"
  | .high => "high"
  | .critical => "critical"

/-- Free-text justification attached to the recommended priority. -/
def priorityReason (t : Ticket) : String :=
  match t.priority.bind parsePriority with
  | some _ => "explicit ticket priority"
  | none =>
      if urgencyKeywords.any (fun kw => containsSub (ticketText t) kw) then
        "urgency keyword detected in ticket text"
      else
        "no urgency keyword found"

/-- The priority→duration lookup table of spec §4.1. -/
def resolutionTimeTable : Priority → String
  | .critical => "1-2 hours"
  | .high => "2-4 hours"
  | .medium => "4-8 hours"
  | .low => "1-2 business days"

/-- Generic self-fix suggestions, used when no category-specific list
exists (spec §4.1). -/
def genericSuggestions : List String :=
  ["Restart the affected application/device", "Check network connectivity"]

/-- Category→suggestion-list table (spec §4.1). -/
def suggestionsTable : Category → List String
  | .network =>
      ["Check your Wi-Fi or network cable connection",
       "Restart your router or VPN client",
       "Check network connectivity"]
  | .access =>
      ["Use the self-service password reset portal",
       "Verify that Caps Lock is off before logging in"]
  | .hardware =>
      ["Restart the affected device",
       "Check all cable connections"]
  | _ => genericSuggestions

/-- Display names for categories, used as matched skills. -/
def categoryName : Category → String
  | .hardware => "Hardware"
  | .software => "Software"
  | .network => "Network"
  | .email => "Email"
  | .access => "Access"
  | .security => "Security"
  | .other => "Other"

/-- Routing target per category for the heuristic path. -/
def processorNameFor : Category → String
  | .network => "Network Support Team"
  | .access => "Identity and Access Team"
  | .hardware => "Hardware Support Team"
  | _ => "IT Service Desk"

/-- Suggested processor on the heuristic path: its confidence score is the
same deterministic function of keyword matches as the category confidence
(spec §4.1). -/
def heuristicProcessor (t : Ticket) : SuggestedProcessor :=
  { name := processorNameFor (heuristicCategory t)
    reason := "Rule-based match on category keywords"
    confidenceScore := heuristicCategoryConfidence t
    matchedSkills := [categoryName (heuristicCategory t)]
    availability := Availability.unknown }

/-- The Heuristic Classifier (spec §4.1): a complete, schema-valid
`TicketAnalysis` from the ticket text alone; `similarTickets` degrades to
the empty list since no historical data is consulted. -/
def heuristicAnalyze (t : Ticket) : TicketAnalysis :=
  { suggestedProcessor := heuristicProcessor t
    selfFixSuggestions := suggestionsTable (heuristicCategory t)
    categoryConfidence := heuristicCategoryConfidence t
    priorityRecommendation :=
      priorityName (heuristicPriority t) ++ " - " ++ priorityReason t
    similarTickets := []
    estimatedResolutionTime := resolutionTimeTable (heuristicPriority t)
    additionalInsights := [] }

/-! ### LLM Analysis Client (spec §4.2)

Modelled from the spec: the prompt construction and outbound call of the
client live in the absent backend sources, so the model takes the provider
behaviour as an explicit `LLMOutcome` and owns the validating parse of the
raw response, which treats the raw LLM JSON as untrusted input and rejects
(never coerces) anything missing or out of range (spec §4.2/§9). -/

/-- Error taxonomy of spec §7: the only four error kinds the core defines. -/
inductive AnalysisError
  | analysisTimeoutError
  | analysisAuthError
  | analysisParseError
  | analysisRateLimitError
  deriving Repr, DecidableEq

/-- The raw, untyped `suggestedProcessor` object of the LLM response:
every field may be absent. -/
structure RawProcessor where
  name : Option String
  reason : Option String
  confidenceScore : Option ℚ
  matchedSkills : Option (List String)
  availability : Option String
  deriving Repr, DecidableEq

/-- A raw, untyped `similarTickets` entry of the LLM response. -/
structure RawSimilar where
  title : Option String
  similarityScore : Option ℚ
  resolutionApproach : Option String
  deriving Repr, DecidableEq

/-- The raw, untyped JSON object returned by the model: every required
field of the §3 schema may be absent. -/
structure RawAnalysis where
  suggestedProcessor : Option RawProcessor
  selfFixSuggestions : Option (List String)
  categoryConfidence : Option ℚ
  priorityRecommendation : Option String
  similarTickets : Option (List RawSimilar)
  estimatedResolutionTime : Option String
  additionalInsights : Option (List String)
  deriving Repr, DecidableEq

/-- Parse the `availability` text of the raw response into the §3 enum. -/
def parseAvailability (s : String) : Option Availability :=
  match s with
  | "Available" => some .available
  | "Busy" => some .busy
  | "Offline" => some .offline
  | "Unknown" => some .unknown
  | _ => none

/-- Validate the raw `suggestedProcessor` object field by field. -/
def validateProcessor (rp : RawProcessor) : Except AnalysisError SuggestedProcessor :=
  match rp.name, rp.reason, rp.confidenceScore, rp.matchedSkills, rp.availability with
  | some n, some r, some c, some sk, some av =>
      match parseAvailability av with
      | some a =>
          if 0 ≤ c ∧ c ≤ 1 then
            .ok { name := n, reason := r, confidenceScore := c,
                  matchedSkills := sk, availability := a }
          else
            .error .analysisParseError
      | none => .error .analysisParseError
  | _, _, _, _, _ => .error .analysisParseError

/-- Validate one raw `similarTickets` entry field by field. -/
def validateSimilar (rs : RawSimilar) : Except AnalysisError SimilarTicket :=
  match rs.title, rs.similarityScore, rs.resolutionApproach with
  | some ti, some sc, some ra =>
      if 0 ≤ sc ∧ sc ≤ 1 then
        .ok { title := ti, similarityScore := sc, resolutionApproach := ra }
      else
        .error .analysisParseError
  | _, _, _ => .error .analysisParseError

/-- Validate a raw `similarTickets` list entry by entry. -/
def validateSimilarList : List RawSimilar → Except AnalysisError (List SimilarTicket)
  | [] => .ok []
  | r :: rs =>
      match validateSimilar r, validateSimilarList rs with
      | .ok s, .ok ss => .ok (s :: ss)
      | _, _ => .error .analysisParseError

/-- The validating parse of spec §4.2/§9: every required field must be
present, every numeric field in range, and the list lengths within the §3
bounds; otherwise the client fails with `analysisParseError` instead of
substituting defaults. -/
def validateAnalysis (raw : RawAnalysis) : Except AnalysisError TicketAnalysis :=
  match raw.suggestedProcessor, raw.selfFixSuggestions, raw.categoryConfidence,
        raw.priorityRecommendation, raw.similarTickets,
        raw.estimatedResolutionTime, raw.additionalInsights with
  | some rp, some fixes, some cc, some pr, some sims, some ert, some ins =>
      match validateProcessor rp, validateSimilarList sims with
      | .ok p, .ok ss =>
          if (0 ≤ cc ∧ cc ≤ 1) ∧ fixes.length ≤ 6 ∧ ss.length ≤ 5 ∧ ins.length ≤ 5 then
            .ok { suggestedProcessor := p
                  selfFixSuggestions := fixes
                  categoryConfidence := cc
                  priorityRecommendation := pr
                  similarTickets := ss
                  estimatedResolutionTime := ert
                  additionalInsights := ins }
          else
            .error .analysisParseError
      | _, _ => .error .analysisParseError
  | _, _, _, _, _, _, _ => .error .analysisParseError

/-- Provider behaviour observed by the client during its single attempt. -/
inductive LLMOutcome
  | response (raw : RawAnalysis)
  | timeout
  | authFailure
  | rateLimited
  deriving Repr, DecidableEq

/-- The LLM Analysis Client (spec §4.2): one attempt, no retries; every
lower-level fault is surfaced as one of the four error kinds. -/
def llmAnalyze (_t : Ticket) (_history : List Ticket)
    (outcome : LLMOutcome) : Except AnalysisError TicketAnalysis :=
  match outcome with
  | .response raw => validateAnalysis raw
  | .timeout => .error .analysisTimeoutError
  | .authFailure => .error .analysisAuthError
  | .rateLimited => .error .analysisRateLimitError

/-! ### Ticket Triage Orchestrator (spec §4.3)

Modelled from the spec: the single public entry point `analyze`.  The
configuration is the explicit two-variant type of spec §9; the external
world (history accessor result, provider behaviour) is an explicit
environment, so the orchestrator itself is a total function. -/

/-- Log entries emitted at the orchestrator boundary (spec §4.3 step 4). -/
inductive FailureLog
  | analysisFailure (kind : AnalysisError)
  | historyAccessFailure (message : String)
  deriving Repr, DecidableEq

/-- The two-variant configuration of spec §9: an LLM credential is either
absent or present. -/
inductive AIConfig
  | aiDisabled
  | aiEnabled (credential : String)
  deriving Repr, DecidableEq

/-- External collaborators of one `analyze` invocation: the history
accessor result and the provider behaviour on the single attempt. -/
structure TriageEnv where
  history : Except String (List Ticket)
  llm : LLMOutcome
  deriving Repr

/-- What one `analyze` invocation produces: the analysis, the log entries
emitted at the boundary, and the number of outbound network calls made. -/
structure TriageResult where
  analysis : TicketAnalysis
  logs : List FailureLog
  networkCalls : Nat
  deriving Repr, DecidableEq

/-- The Ticket Triage Orchestrator (spec §4.3): no credential → heuristic
with no network call; history accessor failure → heuristic, one log, no
network call; otherwise one LLM attempt over at most 50 historical
tickets, returned verbatim on success and replaced by the heuristic result
plus one log entry on any of the four error kinds. -/
def analyze (cfg : AIConfig) (env : TriageEnv) (t : Ticket) : TriageResult :=
  match cfg with
  | .aiDisabled =>
      { analysis := heuristicAnalyze t, logs := [], networkCalls := 0 }
  | .aiEnabled _ =>
      match env.history with
      | .error msg =>
          { analysis := heuristicAnalyze t
            logs := [FailureLog.historyAccessFailure msg]
            networkCalls := 0 }
      | .ok hist =>
          match llmAnalyze t (hist.take 50) env.llm with
          | .ok a =>
              { analysis := a, logs := [], networkCalls := 1 }
          | .error e =>
              { analysis := heuristicAnalyze t
                logs := [FailureLog.analysisFailure e]
                networkCalls := 1 }

/-! ### Ambient runtime state

Determinism of the heuristic path is a two-run property; the ambient
state a real runtime could leak into a computation (clock, random seed) is
made an explicit parameter, and the embedded code reads none of it. -/

/-- Ambient runtime state available to an invocation. -/
structure RuntimeEnv where
  clockMillis : Nat
  randSeed : Nat
  deriving Repr, DecidableEq

/-- The Heuristic Classifier as invoked under a runtime environment; the
classifier reads nothing from the environment (spec §4.1: no network, a
deterministic function of the ticket text). -/
def heuristicAnalyzeUnder (_env : RuntimeEnv) (t : Ticket) : TicketAnalysis :=
  heuristicAnalyze t

/-! ### Chatbot mock response generator
(src/aura-frontend/src/pages/Chatbot/Chatbot.js, `generateMockResponse`) -/

/-- Response of the password/login branch (Chatbot.js lines 120-122). -/
def passwordResponse : String :=
  "I can help you with password issues! Here are some common solutions:\n\n1. **Reset your password**: Go to the company portal and click \x27Forgot Password\x27\n2. **Check caps lock**: Make sure caps lock is off\n3. **Clear browser cache**: Clear your browser\x27s saved passwords\n4. **Contact IT**: If none of these work, I can create a ticket for you\n\nWould you like me to guide you through any of these steps?"

/-- Response of the vpn/connection branch (Chatbot.js lines 124-126). -/
def vpnResponse : String :=
  "VPN connection problems are common. Let\x27s troubleshoot:\n\n1. **Check your internet**: Make sure you have a stable connection\n2. **Restart VPN client**: Close and reopen your VPN application\n3. **Try different server**: Switch to a different VPN server location\n4. **Update VPN client**: Make sure you have the latest version\n\nIf these don\x27t help, I can escalate this to our network team. Would you like me to create a support ticket?"

/-- Response of the email/outlook branch (Chatbot.js lines 128-130). -/
def emailResponse : String :=
  "Email setup issues can be frustrating. Here\x27s what usually works:\n\n1. **Check server settings**: \n   - IMAP: mail.company.com (Port 993)\n   - SMTP: mail.company.com (Port 587)\n2. **Verify credentials**: Double-check username and password\n3. **Enable 2FA**: You might need an app password\n4. **Restart email client**: Close and reopen Outlook\n\nNeed help with any specific email client? I have guides for Outlook, Apple Mail, and others."

/-- Response of the printer/print branch (Chatbot.js lines 132-134). -/
def printerResponse : String :=
  "Printer troubles? Let\x27s get you printing again:\n\n1. **Check connections**: Ensure printer is plugged in and on\n2. **Restart printer**: Turn off for 30 seconds, then back on\n3. **Check print queue**: Clear any stuck print jobs\n4. **Update drivers**: Download latest drivers from manufacturer\n5. **Network printers**: Make sure you\x27re on the right network\n\nWhat type of printer issue are you experiencing?"

/-- Default response (Chatbot.js lines 136-137). -/
def defaultChatResponse : String :=
  "I understand you\x27re having an issue. While I\x27m still learning about this specific topic, I can:\n\n1. **Search our knowledge base** for related articles\n2. **Create a support ticket** for you with our IT team\n3. **Connect you with a live agent** if available\n\nWhat would you prefer? Or could you provide more details about your specific problem?"

/-- Function `generateMockResponse` from Chatbot.js: lowercases the message and
walks an ordered if-chain of keyword tests. -/
def generateMockResponse (message : String) : String :=
  let lowerMessage := toLowerStr message
  if containsSub lowerMessage "password" || containsSub lowerMessage "login" then
    passwordResponse
  else if containsSub lowerMessage "vpn" || containsSub lowerMessage "connection" then
    vpnResponse
  else if containsSub lowerMessage "email" || containsSub lowerMessage "outlook" then
    emailResponse
  else if containsSub lowerMessage "printer" || containsSub lowerMessage "print" then
    printerResponse
  else
    defaultChatResponse

/-- Function `generateMockResponse` as invoked under a runtime environment; the
generator reads nothing from the environment. -/
def generateMockResponseUnder (_env : RuntimeEnv) (message : String) : String :=
  generateMockResponse message

/-! ### API service module (src/.../services/api.js)

The `serviceDeskAPI` object literal defines exactly the methods listed in
its source (lines 54-112).  Property access on a JavaScript object yields
`undefined` for any name outside this set, and invoking `undefined`
throws a `TypeError`, modelled below as an exceptional call result. -/

/-- The method names the `serviceDeskAPI` object literal defines, in
declaration order. -/
def serviceDeskAPIMethods : List String :=
  ["getTickets", "getTicket", "createTicket", "updateTicket", "assignTicket",
   "updateTicketStatus", "categorizeTicket", "routeTicket", "getTicketAnalytics"]

/-- JavaScript property lookup on the `serviceDeskAPI` object: `some` for a
defined method, `none` (i.e. `undefined`) otherwise. -/
def serviceDeskAPIGet (name : String) : Option String :=
  serviceDeskAPIMethods.find? (fun m => m == name)

/-- Result of an awaited JavaScript call: a value or a thrown exception. -/
inductive JsCallResult (α : Type)
  | ok (v : α)
  | exn (message : String)
  deriving Repr, DecidableEq

/-- Invoke a method of `serviceDeskAPI` by name: a defined method performs
the backend call (supplied as `backend`); an undefined property is not a
function, so the invocation throws. -/
def callServiceDeskMethod (backend : String → JsCallResult TicketAnalysis)
    (name : String) : JsCallResult TicketAnalysis :=
  match serviceDeskAPIGet name with
  | some m => backend m
  | none => JsCallResult.exn "serviceDeskAPI.analyzeTicket is not a function"

/-! ### TicketDetail page (src/.../ServiceDesk/TicketDetail.js) -/

/-- Snackbar variants used by the page. -/
inductive SnackVariant
  | success
  | error
  deriving Repr, DecidableEq

/-- The component state touched by the `analyzeTicket` handler. -/
structure DetailState where
  analyzing : Bool
  aiAnalysis : Option TicketAnalysis
  snackbars : List (String × SnackVariant)
  deriving Repr, DecidableEq

/-- The `analyzeTicket` handler (TicketDetail.js lines 65-83): guard on a
falsy `ticketId`, then `await serviceDeskAPI.analyzeTicket(ticketId)`
inside try/catch/finally. -/
def analyzeTicketHandler (backend : String → JsCallResult TicketAnalysis)
    (ticketId : Option String) (st : DetailState) : DetailState :=
  if ticketId.getD "" == "" then
    { st with snackbars :=
        st.snackbars ++ [("No ticket ID available for analysis", SnackVariant.error)] }
  else
    match callServiceDeskMethod backend "analyzeTicket" with
    | .ok a =>
        { st with
            analyzing := false
            aiAnalysis := some a
            snackbars :=
              st.snackbars ++ [("AI analysis completed successfully", SnackVariant.success)] }
    | .exn _ =>
        { st with
            analyzing := false
            snackbars :=
              st.snackbars ++ [("Failed to analyze ticket with AI", SnackVariant.error)] }

/-! ### Development-mode mock data and `apiWithFallback.getTicket`
(src/.../services/api.js lines 233-271 and 323-334) -/

/-- A ticket of the `mockData.tickets` array. -/
structure MockTicket where
  id : Nat
  title : String
  description : String
  status : String
  priority : String
  category : String
  created_at : String
  updated_at : String
  assigned_to : Option String
  requester : String
  deriving Repr, DecidableEq

/-- First entry of `mockData.tickets`. -/
def mockTicket1 : MockTicket :=
  { id := 1
    title := "Cannot access email"
    description := "User unable to login to Outlook"
    status := "open"
    priority := "medium"
    category := "Email"
    created_at := "2024-01-15T10:30:00Z"
    updated_at := "2024-01-15T10:30:00Z"
    assigned_to := none
    requester := "john.doe@company.com" }

/-- Second entry of `mockData.tickets`. -/
def mockTicket2 : MockTicket :=
  { id := 2
    title := "VPN connection issues"
    description := "Cannot connect to company VPN from home"
    status := "in_progress"
    priority := "high"
    category := "Network"
    created_at := "2024-01-15T09:15:00Z"
    updated_at := "2024-01-15T11:45:00Z"
    assigned_to := some "agent-1"
    requester := "jane.smith@company.com" }

/-- Third entry of `mockData.tickets`. -/
def mockTicket3 : MockTicket :=
  { id := 3
    title := "Software installation request"
    description := "Need Adobe Creative Suite installed on workstation"
    status := "resolved"
    priority := "low"
    category := "Software"
    created_at := "2024-01-14T14:20:00Z"
    updated_at := "2024-01-15T08:30:00Z"
    assigned_to := some "agent-2"
    requester := "bob.johnson@company.com" }

/-- The `mockData.tickets` array. -/
def mockDataTickets : List MockTicket :=
  [mockTicket1, mockTicket2, mockTicket3]

/-- Payload shapes `apiWithFallback.getTicket` can resolve with: the
backend response, or `{ data: mockTicket || mockData.tickets[0] }`. -/
inductive TicketPayload
  | fromBackend (raw : String)
  | fromMock (t : Option MockTicket)
  deriving Repr, DecidableEq

/-- Method `apiWithFallback.getTicket` (api.js lines 323-334): try the backend;
on failure in development mode, resolve with the mock ticket whose id
stringifies equal to `ticketId`, falling back to `mockData.tickets[0]`;
outside development mode re-throw. -/
def apiWithFallback_getTicket (isDevelopment : Bool)
    (backend : Except String String) (ticketId : String) :
    Except String TicketPayload :=
  match backend with
  | .ok raw => .ok (.fromBackend raw)
  | .error e =>
      if isDevelopment then
        .ok (.fromMock
          ((mockDataTickets.find? (fun t => toString t.id == ticketId)).orElse
            (fun _ => mockDataTickets.head?)))
      else
        .error e

/-! ### CreateTicket page (src/.../ServiceDesk/CreateTicket.js)

`sanitizeInput` chains five global regex replacements with the empty
string.  Each is embedded as a scan that, at every position, either
recognises a match of the pattern (returning its length, always ≥ 1) and
drops it, or keeps the character and moves on — exactly the semantics of
`String.prototype.replace` with the `g` flag and an empty replacement for
these patterns, none of which can match the empty string.  The scans are
driven by a fuel equal to the input length; each step consumes at least
one character, so the fuel never runs out. -/

/-- JavaScript `\w`: ASCII letters, digits and underscore. -/
def isWordChar (c : Char) : Bool :=
  c.isAlphanum || c == '_'

/-- JavaScript `\s` on the ASCII range. -/
def isJsSpace (c : Char) : Bool :=
  c == ' ' || c == '\t' || c == '\n' || c == '\r' || c == '\x0b' || c == '\x0c'

/-- The quote character class of the event-handler pattern: a double or
single quote. -/
def isQuoteChar (c : Char) : Bool :=
  c == '"' || c == '\x27'

/-- Case-insensitive prefix test; the pattern is supplied lowercase. -/
def isPrefixOfCI : List Char → List Char → Bool
  | [], _ => true
  | _ :: _, [] => false
  | p :: ps, c :: cs => p == c.toLower && isPrefixOfCI ps cs

/-- Index of the first occurrence of `</script>` (case-insensitive). -/
def findCloseScriptIdx : List Char → Option Nat
  | [] => none
  | c :: rest =>
      if isPrefixOfCI "</script>".data (c :: rest) then some 0
      else (findCloseScriptIdx rest).map (· + 1)

/-- Match of `/<script\b[^<]*(?:(?!<\/script>)<[^<]*)*<\/script>/gi` at the
head of the list: `<script` with a word boundary, then (since `[^<]*`
never crosses a `<` and the loop stops at the first `</script>`
lookahead) everything up to and including the first `</script>`. -/
def scriptTagMatch (l : List Char) : Option Nat :=
  if isPrefixOfCI "<script".data l then
    let rest := l.drop 7
    if (rest.head?.map isWordChar).getD false then none
    else
      match findCloseScriptIdx rest with
      | some i => some (7 + i + 9)
      | none => none
  else none

/-- Index of the first `>` character. -/
def findGtIdx : List Char → Option Nat
  | [] => none
  | c :: rest =>
      if c == '>' then some 0
      else (findGtIdx rest).map (· + 1)

/-- Match of `/<[^>]*>/g` at the head of the list: a `<` through the first
following `>`. -/
def htmlTagMatch (l : List Char) : Option Nat :=
  match l with
  | '<' :: rest =>
      match findGtIdx rest with
      | some i => some (1 + i + 1)
      | none => none
  | _ => none

/-- Match of `/javascript:/gi` at the head of the list. -/
def jsProtocolMatch (l : List Char) : Option Nat :=
  if isPrefixOfCI "javascript:".data l then some 11 else none

/-- Length of the leading run satisfying `p`. -/
def countLeading (p : Char → Bool) (l : List Char) : Nat :=
  (l.takeWhile p).length

/-- Match of the event-handler pattern (`on`, then word characters, then
optional spaces, `=`, optional spaces, then a quoted chunk) at the head of
the list, case-insensitively — the fourth replacement of CreateTicket.js
line 119; the
greedy runs are forced, so the match length is determined. -/
def eventHandlerMatch (l : List Char) : Option Nat :=
  if isPrefixOfCI "on".data l then
    let r1 := l.drop 2
    let w := countLeading isWordChar r1
    if w == 0 then none
    else
      let r2 := r1.drop w
      let s1 := countLeading isJsSpace r2
      match r2.drop s1 with
      | '=' :: r4 =>
          let s2 := countLeading isJsSpace r4
          match r4.drop s2 with
          | q1 :: r6 =>
              if isQuoteChar q1 then
                let b := countLeading (fun c => !(isQuoteChar c)) r6
                match r6.drop b with
                | q2 :: _ =>
                    if isQuoteChar q2 then some (2 + w + s1 + 1 + s2 + 1 + b + 1)
                    else none
                | [] => none
              else none
          | [] => none
      | _ => none
  else none

/-- Match of `/[<>]/g` at the head of the list. -/
def angleMatch (l : List Char) : Option Nat :=
  match l with
  | c :: _ => if c == '<' || c == '>' then some 1 else none
  | [] => none

/-- Fuel-driven global replace-with-empty scan: drop a recognised match,
otherwise keep the head character. -/
def replaceScanAux (m : List Char → Option Nat) :
    Nat → List Char → List Char
  | 0, l => l
  | _ + 1, [] => []
  | fuel + 1, c :: rest =>
      match m (c :: rest) with
      | some k => replaceScanAux m fuel ((c :: rest).drop k)
      | none => c :: replaceScanAux m fuel rest

/-- Global replace-with-empty of the pattern recognised by `m`. -/
def replaceScan (m : List Char → Option Nat) (l : List Char) : List Char :=
  replaceScanAux m l.length l

/-- Function `sanitizeInput` (CreateTicket.js lines 111-121): the five chained
replacements — script tags, HTML tags, the `javascript:` protocol, inline
event handlers, and finally any remaining `<` or `>` characters. -/
def sanitizeInput (s : String) : String :=
  ⟨replaceScan angleMatch
    (replaceScan eventHandlerMatch
      (replaceScan jsProtocolMatch
        (replaceScan htmlTagMatch
          (replaceScan scriptTagMatch s.data))))⟩

/-- JavaScript `String.prototype.trim` on the ASCII range. -/
def jsTrim (s : String) : String :=
  ⟨((s.data.dropWhile isJsSpace).reverse.dropWhile isJsSpace).reverse⟩

/-! #### Create Ticket form state machine -/

/-- The string-valued fields of the form state that `handleInputChange`
can set. -/
inductive FormField
  | title
  | description
  | category
  | priority
  | userEmail
  | userName
  | department
  deriving Repr, DecidableEq

/-- The `formData` component state. -/
structure FormData where
  title : String
  description : String
  category : String
  priority : String
  user_email : String
  user_name : String
  department : String
  attachments : List String
  deriving Repr, DecidableEq

/-- The initial `formData` value (CreateTicket.js lines 51-60). -/
def initialFormData : FormData :=
  { title := ""
    description := ""
    category := ""
    priority := "medium"
    user_email := ""
    user_name := ""
    department := ""
    attachments := [] }

/-- Store a value into the named field. -/
def setField (fd : FormData) : FormField → String → FormData
  | .title, v => { fd with title := v }
  | .description, v => { fd with description := v }
  | .category, v => { fd with category := v }
  | .priority, v => { fd with priority := v }
  | .userEmail, v => { fd with user_email := v }
  | .userName, v => { fd with user_name := v }
  | .department, v => { fd with department := v }

/-- Function `handleInputChange` (CreateTicket.js lines 169-185): every string
value is passed through `sanitizeInput` before being stored. -/
def handleInputChange (field : FormField) (value : String) (fd : FormData) :
    FormData :=
  setField fd field (sanitizeInput value)

/-- Function `handleFileAttachment` (CreateTicket.js lines 244-253): appends the
selected file names. -/
def handleFileAttachment (names : List String) (fd : FormData) : FormData :=
  { fd with attachments := fd.attachments ++ names }

/-- Function `removeAttachment` (CreateTicket.js lines 255-260): drops the entry at
the given index. -/
def removeAttachment (i : Nat) (fd : FormData) : FormData :=
  { fd with attachments := fd.attachments.eraseIdx i }

/-- Function `handleClear` (CreateTicket.js lines 230-242): resets the form. -/
def handleClear (_fd : FormData) : FormData :=
  initialFormData

/-- The user interactions that mutate the form state. -/
inductive FormEvent
  | input (field : FormField) (value : String)
  | attach (names : List String)
  | removeAtt (i : Nat)
  | clear
  deriving Repr

/-- One step of the form state machine. -/
def applyEvent (fd : FormData) : FormEvent → FormData
  | .input field value => handleInputChange field value fd
  | .attach names => handleFileAttachment names fd
  | .removeAtt i => removeAttachment i fd
  | .clear => handleClear fd

/-- Run a sequence of user interactions from a starting state. -/
def applyEvents (evs : List FormEvent) (fd : FormData) : FormData :=
  evs.foldl applyEvent fd

/-- The `ticketData` payload that `handleSubmit` posts. -/
structure TicketData where
  title : String
  description : String
  category : String
  priority : String
  user_email : String
  user_name : String
  department : String
  user_id : String
  attachments : List String
  deriving Repr, DecidableEq

/-- The `ticketData` construction inside `handleSubmit` (CreateTicket.js
lines 199-209). -/
def mkTicketData (fd : FormData) : TicketData :=
  { title := jsTrim fd.title
    description := jsTrim fd.description
    category := fd.category
    priority := fd.priority
    user_email := toLowerStr (jsTrim fd.user_email)
    user_name := jsTrim fd.user_name
    department := fd.department
    user_id := toLowerStr (jsTrim fd.user_email)
    attachments := fd.attachments }

/-- A string is free of HTML angle brackets. -/
def angleFree (s : String) : Prop :=
  ∀ c ∈ s.data, c ≠ '<' ∧ c ≠ '>'

/-- All scalar string fields of a form state are free of angle brackets. -/
def formAngleFree (fd : FormData) : Prop :=
  angleFree fd.title ∧ angleFree fd.description ∧ angleFree fd.category ∧
  angleFree fd.priority ∧ angleFree fd.user_email ∧ angleFree fd.user_name ∧
  angleFree fd.department

/-- All scalar string fields of a submitted payload are free of angle
brackets. -/
def ticketDataAngleFree (td : TicketData) : Prop :=
  angleFree td.title ∧ angleFree td.description ∧ angleFree td.category ∧
  angleFree td.priority ∧ angleFree td.user_email ∧ angleFree td.user_name ∧
  angleFree td.department ∧ angleFree td.user_id

/-! ### Helper lemmas: the heuristic path satisfies the §3 invariants -/

theorem heuristicCategoryConfidence_bounds (t : Ticket) :
    0 ≤ heuristicCategoryConfidence t ∧ heuristicCategoryConfidence t ≤ 1 := by
  unfold heuristicCategoryConfidence
  cases hf : keywordTable.find? (entryMatches (ticketText t)) with
  | none => norm_num
  | some e =>
      constructor
      · exact le_trans (by norm_num) (le_max_left _ _)
      · apply max_le (by norm_num)
        have hc : ((e.1.countP (fun kw => containsSub (ticketText t) kw) : ℚ)) ≤
            ((e.1.length : ℚ)) := by
          exact_mod_cast List.countP_le_length (fun kw => containsSub (ticketText t) kw)
        exact div_le_one_of_le₀ hc (by positivity)

theorem heuristicAnalyze_schemaValid (t : Ticket) :
    schemaValid (heuristicAnalyze t) := by
  obtain ⟨h0, h1⟩ := heuristicCategoryConfidence_bounds t
  refine ⟨⟨h0, h1, h0, h1, ?_⟩, ?_, ?_, ?_⟩
  · intro s hs
    simp [heuristicAnalyze] at hs
  · show (suggestionsTable (heuristicCategory t)).length ≤ 6
    cases heuristicCategory t <;> decide
  · show ([] : List SimilarTicket).length ≤ 5
    decide
  · show ([] : List String).length ≤ 5
    decide

/-! ### Helper lemmas: the validating parse only accepts in-range data -/

theorem validateProcessor_ok {rp : RawProcessor} {p : SuggestedProcessor}
    (h : validateProcessor rp = .ok p) :
    0 ≤ p.confidenceScore ∧ p.confidenceScore ≤ 1 := by
  unfold validateProcessor at h
  split at h
  · split at h
    · split at h
      · rename_i hrange
        cases h
        exact hrange
      · cases h
    · cases h
  · cases h

theorem validateSimilar_ok {rs : RawSimilar} {s : SimilarTicket}
    (h : validateSimilar rs = .ok s) :
    0 ≤ s.similarityScore ∧ s.similarityScore ≤ 1 := by
  unfold validateSimilar at h
  split at h
  · split at h
    · rename_i hrange
      cases h
      exact hrange
    · cases h
  · cases h

theorem validateSimilarList_ok :
    ∀ {rs : List RawSimilar} {l : List SimilarTicket},
      validateSimilarList rs = .ok l →
      ∀ s ∈ l, 0 ≤ s.similarityScore ∧ s.similarityScore ≤ 1 := by
  intro rs
  induction rs with
  | nil =>
      intro l h s hs
      cases h
      simp at hs
  | cons r rest ih =>
      intro l h s hs
      unfold validateSimilarList at h
      split at h
      · rename_i s0 ss0 hs0 hss0
        cases h
        rcases List.mem_cons.mp hs with hEq | hMem
        · subst hEq
          exact validateSimilar_ok hs0
        · exact ih hss0 s hMem
      · cases h

theorem validateAnalysis_ok {raw : RawAnalysis} {a : TicketAnalysis}
    (h : validateAnalysis raw = .ok a) : schemaValid a := by
  unfold validateAnalysis at h
  split at h
  · split at h
    · rename_i p ss hp hss
      split at h
      · rename_i hcond
        obtain ⟨⟨hcc0, hcc1⟩, hfix, hsim, hins⟩ := hcond
        cases h
        obtain ⟨hp0, hp1⟩ := validateProcessor_ok hp
        exact ⟨⟨hcc0, hcc1, hp0, hp1, validateSimilarList_ok hss⟩, hfix, hsim, hins⟩
      · cases h
    · cases h
  · cases h

/-- Function `llmAnalyze` only succeeds with a validated, schema-valid analysis. -/
theorem llmAnalyze_ok_schemaValid {t : Ticket} {hist : List Ticket}
    {out : LLMOutcome} {a : TicketAnalysis}
    (h : llmAnalyze t hist out = .ok a) : schemaValid a := by
  unfold llmAnalyze at h
  split at h
  · exact validateAnalysis_ok h
  · cases h
  · cases h
  · cases h

/-! ### Concrete sample inputs -/

/-- The ticket of spec §8 concrete scenario 1 (no explicit priority). -/
def vpnTicket : Ticket :=
  { id := "TCK-001"
    title := some "VPN won\x27t connect"
    description := some "cannot connect to VPN from home, error code 807"
    category := none
    priority := none
    status := some "open"
    department := none
    requesterName := none
    requesterEmail := none
    createdAt := none
    updatedAt := none
    assignedTo := none
    resolution := none }

/-- A ticket whose text matches both the network and the access entries of
the keyword table, exercising the declaration-order tie-break. -/
def wifiPasswordTicket : Ticket :=
  { id := "TCK-002"
    title := some "WiFi drops after PASSWORD change"
    description := some "wifi disconnects whenever I update my password"
    category := none
    priority := none
    status := some "open"
    department := none
    requesterName := none
    requesterEmail := none
    createdAt := none
    updatedAt := none
    assignedTo := none
    resolution := none }

/-- A triage environment with an empty history and a timed-out provider. -/
def emptyEnv : TriageEnv :=
  { history := .ok [], llm := LLMOutcome.timeout }

/-- A raw LLM response with every required field absent. -/
def rawEmptyAnalysis : RawAnalysis :=
  { suggestedProcessor := none
    selfFixSuggestions := none
    categoryConfidence := none
    priorityRecommendation := none
    similarTickets := none
    estimatedResolutionTime := none
    additionalInsights := none }

/-- A raw processor mirroring the sample response documented in
`docs/AI_Ticket_Analysis_Documentation.md`. -/
def rawSampleProcessor : RawProcessor :=
  { name := some "Carol Williams"
    reason := some "Expert in hardware issues with 95% resolution rate"
    confidenceScore := some (mkRat 17 20)
    matchedSkills := some ["Hardware", "Troubleshooting"]
    availability := some "Available" }

/-- A raw similar-ticket entry mirroring the documented sample response. -/
def rawSampleSimilar : RawSimilar :=
  { title := some "Monitor display issues after update"
    similarityScore := some (mkRat 39 50)
    resolutionApproach := some "Driver rollback and hardware reset" }

/-- A complete raw LLM response mirroring the documented sample response. -/
def rawSampleAnalysis : RawAnalysis :=
  { suggestedProcessor := some rawSampleProcessor
    selfFixSuggestions := some
      ["Try restarting the affected device", "Check all cable connections",
       "Update device drivers", "Run built-in diagnostics"]
    categoryConfidence := some (mkRat 9 10)
    priorityRecommendation := some "high - critical business function affected"
    similarTickets := some [rawSampleSimilar]
    estimatedResolutionTime := some "2-4 hours"
    additionalInsights := some
      ["Hardware warranty status should be checked",
       "Consider preventive maintenance scheduling"] }

/-- The validated form of `rawSampleSimilar`. -/
def sampleParsedSimilar : SimilarTicket :=
  { title := "Monitor display issues after update"
    similarityScore := mkRat 39 50
    resolutionApproach := "Driver rollback and hardware reset" }

/-! ### Claim theorems -/

/-- C1: for every syntactically valid `Ticket` and both the AI-available
and AI-unavailable configurations, `analyze` returns a `TicketAnalysis`
satisfying the §3 invariants.  `analyze` is a total Lean function into
`TicketAnalysis`, whose seven §3 fields are all mandatory structure
fields, so "never throws" and field presence are type-level facts; this
theorem adds the range and length invariants on every path. -/
theorem analyze_total_and_schemaValid (cfg : AIConfig) (env : TriageEnv)
    (t : Ticket) : schemaValid (analyze cfg env t).analysis := by
  obtain ⟨hist, llm⟩ := env
  cases cfg with
  | aiDisabled => exact heuristicAnalyze_schemaValid t
  | aiEnabled cred =>
      cases hist with
      | error msg => exact heuristicAnalyze_schemaValid t
      | ok hs =>
          cases hl : llmAnalyze t (hs.take 50) llm with
          | ok a =>
              simp only [analyze, hl]
              exact llmAnalyze_ok_schemaValid hl
          | error e =>
              simp only [analyze, hl]
              exact heuristicAnalyze_schemaValid t

/-- C3: whenever the LLM Analysis Client fails with any of the four
defined error kinds, `analyze` still returns the heuristic result (hence
the same field set), produces exactly one log entry, and the error is not
surfaced — the result type carries no error channel. -/
theorem analyze_fallback_on_llm_error (cred : String) (hist : List Ticket)
    (t : Ticket) (out : LLMOutcome) (e : AnalysisError)
    (h : llmAnalyze t (hist.take 50) out = .error e) :
    analyze (.aiEnabled cred) ⟨.ok hist, out⟩ t =
      { analysis := heuristicAnalyze t
        logs := [FailureLog.analysisFailure e]
        networkCalls := 1 } := by
  unfold analyze
  simp [h]

/-- Witness for C3: a response missing every required field is rejected as
`analysisParseError` and `analyze` falls back to the heuristic result with
exactly one log entry. -/
theorem analyze_fallback_on_llm_error_witness :
    analyze (.aiEnabled "sk-test") ⟨.ok [], .response rawEmptyAnalysis⟩ vpnTicket =
      { analysis := heuristicAnalyze vpnTicket
        logs := [FailureLog.analysisFailure AnalysisError.analysisParseError]
        networkCalls := 1 } :=
  analyze_fallback_on_llm_error "sk-test" [] vpnTicket
    (.response rawEmptyAnalysis) AnalysisError.analysisParseError rfl

/-- C4: with no LLM credential configured, `analyze` performs zero
outbound network calls, and in every configuration it performs at most
one outbound network call per invocation. -/
theorem analyze_network_call_bounds :
    (∀ (env : TriageEnv) (t : Ticket),
      (analyze .aiDisabled env t).networkCalls = 0) ∧
    (∀ (cfg : AIConfig) (env : TriageEnv) (t : Ticket),
      (analyze cfg env t).networkCalls ≤ 1) := by
  constructor
  · intro env t
    rfl
  · intro cfg env t
    obtain ⟨hist, llm⟩ := env
    cases cfg with
    | aiDisabled => exact Nat.zero_le 1
    | aiEnabled cred =>
        cases hist with
        | error msg => exact Nat.zero_le 1
        | ok hs =>
            cases hl : llmAnalyze t (hs.take 50) llm with
            | ok a =>
                simp only [analyze, hl]
                exact le_refl 1
            | error e =>
                simp only [analyze, hl]
                exact le_refl 1

/-- C5: category selection is a case-insensitive scan of title+description
against the fixed ordered keyword→category table, the first matching
entry in declaration order winning; with no match the default category is
used.  Case-insensitivity is built into the scanned text `ticketText`,
which lowercases the ticket text before the keyword tests. -/
theorem heuristicCategory_ordered_keyword_table (t : Ticket) :
    (entryMatches (ticketText t) networkEntry = true →
      heuristicCategory t = Category.network) ∧
    (entryMatches (ticketText t) networkEntry = false →
      entryMatches (ticketText t) accessEntry = true →
      heuristicCategory t = Category.access) ∧
    (entryMatches (ticketText t) networkEntry = false →
      entryMatches (ticketText t) accessEntry = false →
      entryMatches (ticketText t) hardwareEntry = true →
      heuristicCategory t = Category.hardware) ∧
    (entryMatches (ticketText t) networkEntry = false →
      entryMatches (ticketText t) accessEntry = false →
      entryMatches (ticketText t) hardwareEntry = false →
      heuristicCategory t = Category.other) := by
  refine ⟨?_, ?_, ?_, ?_⟩
  · intro h1
    unfold heuristicCategory keywordTable
    rw [List.find?_cons_of_pos _ h1]
    rfl
  · intro h1 h2
    unfold heuristicCategory keywordTable
    rw [List.find?_cons_of_neg _ (by simp [h1]), List.find?_cons_of_pos _ h2]
    rfl
  · intro h1 h2 h3
    unfold heuristicCategory keywordTable
    rw [List.find?_cons_of_neg _ (by simp [h1]),
      List.find?_cons_of_neg _ (by simp [h2]), List.find?_cons_of_pos _ h3]
    rfl
  · intro h1 h2 h3
    unfold heuristicCategory keywordTable
    rw [List.find?_cons_of_neg _ (by simp [h1]),
      List.find?_cons_of_neg _ (by simp [h2]),
      List.find?_cons_of_neg _ (by simp [h3]), List.find?_nil]

/-- Witness for C5: `wifiPasswordTicket` matches both the network entry
and the access entry, and the network entry — first in declaration order —
determines the category. -/
theorem heuristicCategory_ordered_keyword_table_witness :
    entryMatches (ticketText wifiPasswordTicket) networkEntry = true ∧
    entryMatches (ticketText wifiPasswordTicket) accessEntry = true ∧
    heuristicCategory wifiPasswordTicket = Category.network :=
  ⟨by decide, by decide,
    (heuristicCategory_ordered_keyword_table wifiPasswordTicket).1 (by decide)⟩

/-- C6: the heuristic `estimatedResolutionTime` is exactly the
priority→duration table lookup on the recommended priority, with the four
table rows as specified; on the concrete VPN ticket with no priority and
no AI credential the heuristic yields category Network, priority medium
and estimated resolution time "4-8 hours". -/
theorem resolutionTime_table_and_vpn_scenario :
    (∀ t : Ticket, (heuristicAnalyze t).estimatedResolutionTime =
        resolutionTimeTable (heuristicPriority t)) ∧
    resolutionTimeTable Priority.critical = "1-2 hours" ∧
    resolutionTimeTable Priority.high = "2-4 hours" ∧
    resolutionTimeTable Priority.medium = "4-8 hours" ∧
    resolutionTimeTable Priority.low = "1-2 business days" ∧
    heuristicCategory vpnTicket = Category.network ∧
    heuristicPriority vpnTicket = Priority.medium ∧
    (analyze .aiDisabled emptyEnv vpnTicket).analysis.estimatedResolutionTime =
      "4-8 hours" :=
  ⟨fun _ => rfl, rfl, rfl, rfl, rfl, by decide, by decide, by decide⟩

/-- C7: every analysis produced by either path satisfies the range
invariants: `categoryConfidence`, `suggestedProcessor.confidenceScore`
and every `similarityScore` lie in `[0,1]`. -/
theorem analyze_range_invariants (cfg : AIConfig) (env : TriageEnv)
    (t : Ticket) : rangeInvariant (analyze cfg env t).analysis := by
  obtain ⟨hist, llm⟩ := env
  cases cfg with
  | aiDisabled => exact (heuristicAnalyze_schemaValid t).1
  | aiEnabled cred =>
      cases hist with
      | error msg => exact (heuristicAnalyze_schemaValid t).1
      | ok hs =>
          cases hl : llmAnalyze t (hs.take 50) llm with
          | ok a =>
              simp only [analyze, hl]
              exact (llmAnalyze_ok_schemaValid hl).1
          | error e =>
              simp only [analyze, hl]
              exact (heuristicAnalyze_schemaValid t).1

/-- Witness for C7: on the AI path with the documented sample response,
the similarity score of the parsed similar ticket is within `[0,1]`. -/
theorem analyze_range_invariants_witness :
    0 ≤ sampleParsedSimilar.similarityScore ∧
    sampleParsedSimilar.similarityScore ≤ 1 := by
  have h := analyze_range_invariants (.aiEnabled "sk-test")
    ⟨.ok [], .response rawSampleAnalysis⟩ vpnTicket
  unfold rangeInvariant at h
  exact h.2.2.2.2 sampleParsedSimilar (by decide)

/-- C8: the heuristic path is deterministic — neither the Heuristic
Classifier nor the frontend mock response generator reads any ambient
runtime state (clock, random seed), so two invocations on the same input
under arbitrary environments produce identical output. -/
theorem heuristic_path_deterministic :
    ∀ (env₁ env₂ : RuntimeEnv) (t : Ticket) (m : String),
      heuristicAnalyzeUnder env₁ t = heuristicAnalyzeUnder env₂ t ∧
      generateMockResponseUnder env₁ m = generateMockResponseUnder env₂ m :=
  fun _ _ _ _ => ⟨rfl, rfl⟩

/-- The `serviceDeskAPI` object defines no `analyzeTicket` property. -/
theorem serviceDeskAPIGet_analyzeTicket :
    serviceDeskAPIGet "analyzeTicket" = none := by decide

/-- C2: `serviceDeskAPI.analyzeTicket` is an undefined property of the
exported `serviceDeskAPI` object, so the awaited call in the TicketDetail
page always throws, control always reaches the catch branch (an error
snackbar is enqueued), and `aiAnalysis` is never set — the AI-analysis
feature can never display a successful result. -/
theorem frontend_analyzeTicket_never_succeeds :
    serviceDeskAPIGet "analyzeTicket" = none ∧
    (∀ (backend : String → JsCallResult TicketAnalysis)
        (tid : Option String) (st : DetailState),
      (analyzeTicketHandler backend tid st).aiAnalysis = st.aiAnalysis) ∧
    (∀ (backend : String → JsCallResult TicketAnalysis)
        (tid : Option String) (st : DetailState),
      ∃ msg, (analyzeTicketHandler backend tid st).snackbars =
        st.snackbars ++ [(msg, SnackVariant.error)]) := by
  have hcall : ∀ backend : String → JsCallResult TicketAnalysis,
      callServiceDeskMethod backend "analyzeTicket" =
        JsCallResult.exn "serviceDeskAPI.analyzeTicket is not a function" := by
    intro backend
    unfold callServiceDeskMethod
    rw [serviceDeskAPIGet_analyzeTicket]
  refine ⟨serviceDeskAPIGet_analyzeTicket, ?_, ?_⟩
  · intro backend tid st
    unfold analyzeTicketHandler
    split
    · rfl
    · rw [hcall backend]
  · intro backend tid st
    unfold analyzeTicketHandler
    split
    · exact ⟨"No ticket ID available for analysis", rfl⟩
    · rw [hcall backend]
      exact ⟨"Failed to analyze ticket with AI", rfl⟩

/-- C9: in development mode, when the backend call fails,
`apiWithFallback.getTicket` resolves for every `ticketId` with a mock
ticket: the one whose id stringifies equal to `ticketId` when it exists,
and the first entry of `mockData.tickets` otherwise — the failure is
never propagated and no id is reported as not found. -/
theorem getTicket_dev_mock_fallback :
    ∀ (e ticketId : String), ∃ mt : MockTicket,
      apiWithFallback_getTicket true (.error e) ticketId =
        .ok (.fromMock (some mt)) ∧
      (mockDataTickets.find? (fun t => toString t.id == ticketId) = some mt ∨
       (mockDataTickets.find? (fun t => toString t.id == ticketId) = none ∧
        mt = mockTicket1)) := by
  intro e ticketId
  unfold apiWithFallback_getTicket
  cases hf : mockDataTickets.find? (fun t => toString t.id == ticketId) with
  | some t =>
      refine ⟨t, ?_, Or.inl rfl⟩
      simp [hf, Option.orElse]
  | none =>
      refine ⟨mockTicket1, ?_, Or.inr ⟨rfl, rfl⟩⟩
      simp [hf, Option.orElse, mockDataTickets]

/-! ### Helper lemmas for the sanitization invariant -/

/-- The final `[<>]` replacement leaves no angle bracket in its output,
for any sufficient fuel. -/
theorem replaceScanAux_angleMatch_angleFree :
    ∀ (fuel : Nat) (l : List Char), l.length ≤ fuel →
      ∀ c ∈ replaceScanAux angleMatch fuel l, c ≠ '<' ∧ c ≠ '>' := by
  intro fuel
  induction fuel with
  | zero =>
      intro l hl c hc
      have hnil : l = [] := List.eq_nil_of_length_eq_zero (Nat.le_zero.mp hl)
      subst hnil
      simp [replaceScanAux] at hc
  | succ n ih =>
      intro l hl c hc
      cases l with
      | nil => simp [replaceScanAux] at hc
      | cons a rest =>
          by_cases hang : a = '<' ∨ a = '>'
          · have hm : angleMatch (a :: rest) = some 1 := by
              rcases hang with h | h <;> simp [angleMatch, h]
            simp only [replaceScanAux, hm] at hc
            have hrest : rest.length ≤ n := by
              simpa using Nat.le_of_succ_le_succ hl
            exact ih rest hrest c hc
          · obtain ⟨h1, h2⟩ := not_or.mp hang
            have hm : angleMatch (a :: rest) = none := by
              simp [angleMatch, h1, h2]
            simp only [replaceScanAux, hm] at hc
            rcases List.mem_cons.mp hc with rfl | hmem
            · exact ⟨h1, h2⟩
            · have hrest : rest.length ≤ n := by
                simpa using Nat.le_of_succ_le_succ hl
              exact ih rest hrest c hmem

/-- Function `sanitizeInput` output never contains `<` or `>`: its final
replacement step removes every remaining angle bracket. -/
theorem sanitizeInput_angleFree (s : String) : angleFree (sanitizeInput s) := by
  intro c hc
  exact replaceScanAux_angleMatch_angleFree _ _ le_rfl c hc

/-- Trimming never introduces characters. -/
theorem angleFree_jsTrim {s : String} (h : angleFree s) :
    angleFree (jsTrim s) := by
  intro c hc
  apply h
  have hc1 := List.mem_reverse.mp hc
  have hc2 := List.dropWhile_subset isJsSpace hc1
  have hc3 := List.mem_reverse.mp hc2
  exact List.dropWhile_subset isJsSpace hc3

/-- Function `Char.toLower` maps no character other than `<` to `<`, and no
character other than `>` to `>`: it only moves uppercase letters to
lowercase letters. -/
theorem toLower_eq_angle (c : Char) :
    (Char.toLower c = '<' → c = '<') ∧ (Char.toLower c = '>' → c = '>') := by
  unfold Char.toLower
  dsimp only
  split
  · rename_i hcond
    obtain ⟨h1, h2⟩ := hcond
    have hlt : Char.toNat c < 91 := lt_of_le_of_lt h2 (by norm_num)
    constructor <;> intro heq <;> exfalso
    · have key : ∀ m : Nat, m < 91 → 65 ≤ m → Char.ofNat (m + 32) ≠ '<' := by
        decide
      exact key _ hlt h1 heq
    · have key : ∀ m : Nat, m < 91 → 65 ≤ m → Char.ofNat (m + 32) ≠ '>' := by
        decide
      exact key _ hlt h1 heq
  · exact ⟨fun h => h, fun h => h⟩

/-- Lowercasing preserves freedom from angle brackets. -/
theorem angleFree_toLowerStr {s : String} (h : angleFree s) :
    angleFree (toLowerStr s) := by
  intro c hc
  obtain ⟨c0, hc0, rfl⟩ := List.mem_map.mp hc
  obtain ⟨hne1, hne2⟩ := h c0 hc0
  exact ⟨fun heq => hne1 ((toLower_eq_angle c0).1 heq),
    fun heq => hne2 ((toLower_eq_angle c0).2 heq)⟩

/-- Setting one field with an angle-free value keeps the form state
angle-free. -/
theorem formAngleFree_setField {fd : FormData} (f : FormField) {v : String}
    (hv : angleFree v) (h : formAngleFree fd) :
    formAngleFree (setField fd f v) := by
  obtain ⟨h1, h2, h3, h4, h5, h6, h7⟩ := h
  cases f <;> exact ⟨by first | exact hv | assumption,
    by first | exact hv | assumption, by first | exact hv | assumption,
    by first | exact hv | assumption, by first | exact hv | assumption,
    by first | exact hv | assumption, by first | exact hv | assumption⟩

/-- A string is angle-free as soon as a boolean scan says so. -/
theorem angleFree_of_all {s : String}
    (h : s.data.all (fun c => !(c == '<') && !(c == '>')) = true) :
    angleFree s := by
  intro c hc
  have := List.all_eq_true.mp h c hc
  simp only [Bool.and_eq_true, Bool.not_eq_true', beq_eq_false_iff_ne] at this
  exact this

/-- The initial form state is angle-free. -/
theorem formAngleFree_initial : formAngleFree initialFormData := by
  refine ⟨?_, ?_, ?_, ?_, ?_, ?_, ?_⟩ <;> exact angleFree_of_all (by decide)

/-- Every user interaction preserves the angle-free invariant of the
scalar string fields. -/
theorem formAngleFree_applyEvent {fd : FormData} (h : formAngleFree fd)
    (ev : FormEvent) : formAngleFree (applyEvent fd ev) := by
  cases ev with
  | input f v => exact formAngleFree_setField f (sanitizeInput_angleFree v) h
  | attach names => exact h
  | removeAtt i => exact h
  | clear => exact formAngleFree_initial

/-- Any interaction sequence preserves the angle-free invariant. -/
theorem formAngleFree_applyEvents (evs : List FormEvent) :
    ∀ {fd : FormData}, formAngleFree fd →
      formAngleFree (applyEvents evs fd) := by
  induction evs with
  | nil => intro fd h; exact h
  | cons e rest ih => intro fd h; exact ih (formAngleFree_applyEvent h e)

/-- The payload construction of `handleSubmit` preserves the invariant. -/
theorem ticketDataAngleFree_mk {fd : FormData} (h : formAngleFree fd) :
    ticketDataAngleFree (mkTicketData fd) := by
  obtain ⟨h1, h2, h3, h4, h5, h6, h7⟩ := h
  exact ⟨angleFree_jsTrim h1, angleFree_jsTrim h2, h3, h4,
    angleFree_toLowerStr (angleFree_jsTrim h5), angleFree_jsTrim h6, h7,
    angleFree_toLowerStr (angleFree_jsTrim h5)⟩

/-- C10: `sanitizeInput` returns a string with no `<` and no `>` for every
input, and since `handleInputChange` passes every string value through it
before storing it, every scalar string field of the `ticketData` built by
`handleSubmit` after any sequence of user interactions is free of HTML
angle brackets. -/
theorem createTicket_angle_bracket_free :
    (∀ s : String, angleFree (sanitizeInput s)) ∧
    (∀ evs : List FormEvent,
      ticketDataAngleFree (mkTicketData (applyEvents evs initialFormData))) :=
  ⟨sanitizeInput_angleFree,
    fun evs => ticketDataAngleFree_mk
      (formAngleFree_applyEvents evs formAngleFree_initial)⟩

/-- Witness for C10: concrete runs of the sanitizer and of the form state
machine, with the angle-free conclusions extracted at concrete
characters. -/
theorem createTicket_angle_bracket_free_witness :
    ('h' ∈ (sanitizeInput "<b>hi</b>").data ∧ 'h' ≠ '<' ∧ 'h' ≠ '>') ∧
    ('a' ∈ (mkTicketData (applyEvents
        [FormEvent.input FormField.title "a<b"] initialFormData)).title.data ∧
      'a' ≠ '<' ∧ 'a' ≠ '>') := by
  constructor
  · exact ⟨by decide,
      createTicket_angle_bracket_free.1 "<b>hi</b>" 'h' (by decide)⟩
  · exact ⟨by decide,
      (createTicket_angle_bracket_free.2
        [FormEvent.input FormField.title "a<b"]).1 'a' (by decide)⟩

end Aura
